import Mathlib

/-!
Verification development for the whatsapp-mail ingestion service.

The definitions below are a shallow embedding of the TypeScript source:

* src/src/handlers/message.handler.ts (classification, normalization,
  message ingestion with find-or-create semantics),
* src/src/handlers/history.handler.ts (historical batch import),
* src/src/handlers/chat.handler.ts and contact.handler.ts (delta updates),
* the group handler (group metadata updates),
* src/src/services/whatsapp.service.ts (connection lifecycle manager).

JavaScript truthiness on strings (the empty string is falsy) and the
distinction between an absent field (undefined) and an explicit null are
modelled explicitly.  Dates are modelled as integer milliseconds; the
ingestion-time clock is threaded as a parameter.  The relational store is a
record of row lists with explicit id allocation counters; Sequelize
findOrCreate is modelled as lookup-then-append keyed on the unique column.
-/

namespace WhatsappMail

/-! ## JavaScript value helpers -/

/-- A JavaScript field that can be absent (undefined), explicitly null, or a
value.  Used for delta-update payloads where the three cases behave
differently. -/
inductive JsOpt (α : Type) where
  | undef : JsOpt α
  | null : JsOpt α
  | val : α → JsOpt α
deriving DecidableEq

/-- The value of a field when it is present (not undefined): an explicit null
becomes some none, a value becomes some (some a).  This is the test
written in the source as field !== undefined. -/
def JsOpt.presentValue {α : Type} : JsOpt α → Option (Option α)
  | .undef => none
  | .null => some none
  | .val a => some (some a)

/-- JavaScript truthiness of an option-of-string: undefined, null and the
empty string are all falsy. -/
def strTruthy : Option String → Bool
  | none => false
  | some s => s ≠ ""

/-- JavaScript a or-else b on nullable strings: the left operand wins when
truthy (present and non-empty), otherwise the right operand is returned. -/
def jsOrStr (a b : Option String) : Option String :=
  if strTruthy a then a else b

/-- Normalizing a nullable string through a trailing or-else null: a falsy
value (undefined, null, empty string) becomes none. -/
def jsStrOrNull (a : Option String) : Option String :=
  if strTruthy a then a else none

/-- JavaScript truthiness or-else on object references: any present object is
truthy. -/
def jsOrOpt {α : Type} (a b : Option α) : Option α :=
  match a with
  | some x => some x
  | none => b

/-- JavaScript truthy value of a string field that may be undefined, null or
a value, collapsing falsy cases (including the empty string) to none. -/
def JsOpt.strTruthyVal : JsOpt String → Option String
  | .val s => if s = "" then none else some s
  | _ => none

/-! ## Event normalizer: message classification

Transcribed from resolveMessageType in message.handler.ts.  The source
iterates over Object.keys(messageContent) — the payload object key order —
and returns the message type of the first key recognized by the switch. -/

/-- The switch body of resolveMessageType: maps one content key to the
message_type it selects, or none for an unrecognized key. -/
def classifyKey : String → Option String
  | "conversation" => some "chat"
  | "extendedTextMessage" => some "chat"
  | "imageMessage" => some "image"
  | "videoMessage" => some "video"
  | "audioMessage" => some "audio"
  | "documentMessage" => some "document"
  | "documentWithCaptionMessage" => some "document"
  | "stickerMessage" => some "sticker"
  | "locationMessage" => some "location"
  | "liveLocationMessage" => some "location"
  | "contactMessage" => some "contact"
  | "contactsArrayMessage" => some "contact"
  | "pollCreationMessage" => some "poll"
  | "pollUpdateMessage" => some "poll"
  | "reactionMessage" => some "reaction"
  | "protocolMessage" => some "protocol"
  | "senderKeyDistributionMessage" => some "protocol"
  | _ => none

/-- The for-loop of resolveMessageType: scan the payload keys in payload
order; the first recognized key returns its type; otherwise unknown. -/
def scanKeys : List String → String
  | [] => "unknown"
  | k :: rest =>
    match classifyKey k with
    | some t => t
    | none => scanKeys rest

/-! ## Raw message payload structures (the slice of proto.IMessage used) -/

/-- Nested contextInfo object: quoted-message stanza id, mentions, forwarded
flag. -/
structure ContextInfo where
  stanzaId : Option String := none
  mentionedJid : Option (List String) := none
  isForwarded : Option Bool := none
deriving DecidableEq

/-- extendedTextMessage payload. -/
structure TextMessage where
  text : Option String := none
  contextInfo : Option ContextInfo := none
deriving DecidableEq

/-- Media-bearing payload (image, video, audio, document, sticker). -/
structure MediaMessage where
  caption : Option String := none
  mimetype : Option String := none
  fileName : Option String := none
  contextInfo : Option ContextInfo := none
deriving DecidableEq

/-- Inner object of documentWithCaptionMessage.message. -/
structure DocWithCaptionInner where
  documentMessage : Option MediaMessage := none
deriving DecidableEq

/-- documentWithCaptionMessage payload. -/
structure DocumentWithCaptionMessage where
  message : Option DocWithCaptionInner := none
deriving DecidableEq

/-- locationMessage payload.  Coordinates modelled as integers; their value
is carried through opaquely. -/
structure LocationMessage where
  degreesLatitude : Option Int := none
  degreesLongitude : Option Int := none
  name : Option String := none
  address : Option String := none
deriving DecidableEq

/-- liveLocationMessage payload. -/
structure LiveLocationMessage where
  degreesLatitude : Option Int := none
  degreesLongitude : Option Int := none
  caption : Option String := none
deriving DecidableEq

/-- pollCreationMessage payload. -/
structure PollCreationMessage where
  name : Option String := none
  options : List String := []
  selectableOptionsCount : Option Nat := none
deriving DecidableEq

/-- contactMessage payload. -/
structure ContactMessage where
  displayName : Option String := none
  vcard : Option String := none
deriving DecidableEq

/-- contactsArrayMessage payload; the contacts are carried opaquely. -/
structure ContactsArrayMessage where
  contacts : List String := []
deriving DecidableEq

/-- reactionMessage payload. -/
structure ReactionMessage where
  text : Option String := none
deriving DecidableEq

/-- The slice of proto.IMessage read by the handler.  The keys field records
Object.keys order of the underlying JavaScript object, which drives
resolveMessageType; the named fields carry the values the handler reads. -/
structure IMessage where
  keys : List String := []
  conversation : Option String := none
  extendedTextMessage : Option TextMessage := none
  imageMessage : Option MediaMessage := none
  videoMessage : Option MediaMessage := none
  audioMessage : Option MediaMessage := none
  documentMessage : Option MediaMessage := none
  documentWithCaptionMessage : Option DocumentWithCaptionMessage := none
  stickerMessage : Option MediaMessage := none
  locationMessage : Option LocationMessage := none
  liveLocationMessage : Option LiveLocationMessage := none
  contactMessage : Option ContactMessage := none
  contactsArrayMessage : Option ContactsArrayMessage := none
  pollCreationMessage : Option PollCreationMessage := none
  reactionMessage : Option ReactionMessage := none
deriving DecidableEq

/-- resolveMessageType: null or undefined content is unknown; otherwise the
first key of the payload (in payload key order) recognized by the switch
decides the type. -/
def resolveMessageType : Option IMessage → String
  | none => "unknown"
  | some mc => scanKeys mc.keys

/-- extractBody: the fixed fallback chain of nullable text fields, each
tested with JavaScript truthiness, ending in null. -/
def extractBody : Option IMessage → Option String
  | none => none
  | some mc =>
    jsOrStr mc.conversation
      (jsOrStr (mc.extendedTextMessage.bind (fun m => m.text))
        (jsOrStr (mc.imageMessage.bind (fun m => m.caption))
          (jsOrStr (mc.videoMessage.bind (fun m => m.caption))
            (jsOrStr (mc.documentMessage.bind (fun m => m.caption))
              (jsOrStr ((mc.documentWithCaptionMessage.bind (fun m => m.message)).bind
                  (fun m => m.documentMessage.bind (fun d => d.caption)))
                (jsOrStr (mc.pollCreationMessage.bind (fun m => m.name))
                  (jsOrStr (mc.reactionMessage.bind (fun m => m.text))
                    (jsOrStr (mc.contactMessage.bind (fun m => m.displayName))
                      (jsOrStr (mc.locationMessage.bind (fun m => m.name))
                        (jsOrStr (mc.liveLocationMessage.bind (fun m => m.caption))
                          none))))))))))

/-- chatTypeFromJid: group-suffixed ids are group, broadcast-suffixed are
broadcast, everything else private. -/
def chatTypeFromJid (jid : String) : String :=
  if jid.endsWith "@g.us" then "group"
  else if jid.endsWith "@broadcast" then "broadcast"
  else "private"

/-- A raw messageTimestamp: a plain number or a split low/high 64-bit pair. -/
inductive MessageTimestamp where
  | num : Int → MessageTimestamp
  | long : Int → Int → MessageTimestamp
deriving DecidableEq

/-- extractTimestamp: a missing timestamp falls back to ingestion-time now;
a low/high pair uses the low word; the seconds value is scaled to
milliseconds (the Date constructor). -/
def extractTimestamp (now : Int) : Option MessageTimestamp → Int
  | none => now
  | some (.num n) => n * 1000
  | some (.long low _) => low * 1000

/-- hasMedia: the media-bearing classifications. -/
def hasMedia (messageType : String) : Bool :=
  ["image", "video", "audio", "document", "sticker"].contains messageType

/-- Message key object of proto.IWebMessageInfo. -/
structure MessageKey where
  remoteJid : Option String := none
  fromMe : Option Bool := none
  id : Option String := none
  participant : Option String := none
deriving DecidableEq

/-- The slice of proto.IWebMessageInfo the handler reads. -/
structure WebMessageInfo where
  key : Option MessageKey := none
  message : Option IMessage := none
  pushName : Option String := none
  messageTimestamp : Option MessageTimestamp := none
deriving DecidableEq

/-! ## Entity store rows

Rows carry the columns the handlers read or write (models in
src/src/models); remaining columns keep their database defaults and are
not observed by the code under verification. -/

/-- A chats row. -/
structure ChatRow where
  id : Nat
  chat_id : String
  chat_type : String
  name : Option String := none
  is_archived : Bool := false
  is_pinned : Bool := false
  is_muted : Bool := false
  last_message_at : Option Int := none
  last_message_preview : Option String := none
  unread_count : Int := 0
deriving DecidableEq

/-- A contacts row. -/
structure ContactRow where
  id : Nat
  contact_id : String
  name : Option String := none
  avatar_url : Option String := none
  about : Option String := none
  last_seen_at : Option Int := none
deriving DecidableEq

/-- location_data column content. -/
inductive LocationData where
  | located (latitude longitude : Option Int) (name address : Option String)
  | live (latitude longitude : Option Int) (caption : Option String)
deriving DecidableEq

/-- poll_data column content. -/
structure PollData where
  name : Option String
  options : List String
  selectableOptionsCount : Option Nat
deriving DecidableEq

/-- contact_data column content. -/
inductive ContactData where
  | single (displayName vcard : Option String)
  | array (contacts : List String)
deriving DecidableEq

/-- A messages row, with the columns set by MessageHandler.handleUpsert. -/
structure MessageRow where
  id : Nat
  message_id : String
  chat_id : Nat
  sender_id : String
  sender_name : Option String
  is_from_me : Bool
  body : Option String
  message_type : String
  has_media : Bool
  media_mimetype : Option String
  media_filename : Option String
  media_caption : Option String
  timestamp : Int
  is_forwarded : Bool
  quoted_message_id : Option Nat
  mentions : Option (List String)
  poll_data : Option PollData
  location_data : Option LocationData
  contact_data : Option ContactData
  raw_data : WebMessageInfo
deriving DecidableEq

/-- A group_metadata row. -/
structure GroupMetadataRow where
  id : Nat
  chat_id : Nat
  subject : Option String := none
  owner : Option String := none
  description : Option String := none
  announce : Bool := false
  restrict_mode : Bool := false
  join_approval_mode : Bool := false
  member_add_mode : Bool := false
  ephemeral_duration : Option Int := none
deriving DecidableEq

/-- The relational store: row lists plus autoincrement counters. -/
structure Store where
  chats : List ChatRow := []
  contacts : List ContactRow := []
  messages : List MessageRow := []
  groupMetadata : List GroupMetadataRow := []
  nextChatId : Nat := 1
  nextContactId : Nat := 1
  nextMessageId : Nat := 1
  nextGroupMetaId : Nat := 1
deriving DecidableEq

/-- The empty store. -/
def emptyStore : Store := {}

/-- Chat.findOne keyed on the unique chat_id column. -/
def findChatByJid (s : Store) (jid : String) : Option ChatRow :=
  s.chats.find? (fun c => c.chat_id == jid)

/-- Contact.findOne keyed on the unique contact_id column. -/
def findContactById (s : Store) (cid : String) : Option ContactRow :=
  s.contacts.find? (fun c => c.contact_id == cid)

/-- GroupMetadata.findOne keyed on the unique chat_id foreign key. -/
def findGroupMetaByChatId (s : Store) (chatDbId : Nat) : Option GroupMetadataRow :=
  s.groupMetadata.find? (fun g => g.chat_id == chatDbId)

/-- Chat.findOrCreate: return the existing row, or insert one built from the
defaults (chat_id, chat_type, and optionally name). -/
def chatFindOrCreate (s : Store) (jid chatType : String) (name : Option String) :
    Store × ChatRow × Bool :=
  match findChatByJid s jid with
  | some c => (s, c, false)
  | none =>
    let c : ChatRow := { id := s.nextChatId, chat_id := jid, chat_type := chatType, name := name }
    ({ s with chats := s.chats ++ [c], nextChatId := s.nextChatId + 1 }, c, true)

/-- Contact.findOrCreate with defaults (contact_id, name, and for the
contact-update path avatar_url and about). -/
def contactFindOrCreate (s : Store) (cid : String) (name avatar about : Option String) :
    Store × ContactRow × Bool :=
  match findContactById s cid with
  | some c => (s, c, false)
  | none =>
    let c : ContactRow :=
      { id := s.nextContactId, contact_id := cid, name := name,
        avatar_url := avatar, about := about }
    ({ s with contacts := s.contacts ++ [c], nextContactId := s.nextContactId + 1 }, c, true)

/-- Message.findOrCreate keyed on the unique message_id column; defaults is
the fully-built row (its id preallocated from the counter). -/
def messageFindOrCreate (s : Store) (mid : String) (defaults : MessageRow) :
    Store × MessageRow × Bool :=
  match s.messages.find? (fun r => r.message_id == mid) with
  | some r => (s, r, false)
  | none =>
    ({ s with messages := s.messages ++ [defaults], nextMessageId := s.nextMessageId + 1 },
      defaults, true)

/-- row.update on a chat instance: rewrite the row with the given internal id. -/
def updateChatRow (s : Store) (cid : Nat) (f : ChatRow → ChatRow) : Store :=
  { s with chats := s.chats.map (fun c => if c.id == cid then f c else c) }

/-- row.update on a contact instance. -/
def updateContactRow (s : Store) (cid : Nat) (f : ContactRow → ContactRow) : Store :=
  { s with contacts := s.contacts.map (fun c => if c.id == cid then f c else c) }

/-- row.update on a group_metadata instance. -/
def updateGroupMetaRow (s : Store) (gid : Nat) (f : GroupMetadataRow → GroupMetadataRow) : Store :=
  { s with groupMetadata := s.groupMetadata.map (fun g => if g.id == gid then f g else g) }

/-! ## MessageHandler.handleUpsert (message.handler.ts)

The per-message body is split into the pure normalization of the raw
payload (normalizeMessage, the let-block of the source) and the store
operations (handleUpsertCore); the batch loop with its per-item try/catch
is handleUpsertGuarded. -/

/-- The pure normalized fields computed by the handleUpsert body for one
message, in source order: ids, sender, push name, classification, body,
timestamp, chat kind, context info derived data, media, location, poll and
contact payloads. -/
structure NormalizedMsg where
  chatJid : String
  messageId : String
  senderId : String
  isFromMe : Bool
  pushName : Option String
  messageType : String
  body : Option String
  timestamp : Int
  chatType : String
  quotedStanzaId : Option String
  mentions : Option (List String)
  isForwarded : Bool
  msgHasMedia : Bool
  mediaMimetype : Option String
  mediaFilename : Option String
  locationData : Option LocationData
  pollData : Option PollData
  contactData : Option ContactData
deriving DecidableEq

/-- Transcription of the pure part of the handleUpsert loop body (key
already checked non-null with truthy remoteJid and id). -/
def normalizeMessage (now : Int) (key : MessageKey) (msg : WebMessageInfo) : NormalizedMsg :=
  let chatJid := key.remoteJid.getD ""
  let messageId := key.id.getD ""
  let senderId := (jsOrStr key.participant (jsOrStr key.remoteJid (some ""))).getD ""
  let isFromMe := key.fromMe.getD false
  let pushName := jsStrOrNull msg.pushName
  let mc := msg.message
  let messageType := resolveMessageType mc
  let body := extractBody mc
  let timestamp := extractTimestamp now msg.messageTimestamp
  let chatType := chatTypeFromJid chatJid
  let contextInfo :=
    jsOrOpt (mc.bind (fun m => m.extendedTextMessage.bind (fun t => t.contextInfo)))
      (jsOrOpt (mc.bind (fun m => m.imageMessage.bind (fun t => t.contextInfo)))
        (jsOrOpt (mc.bind (fun m => m.videoMessage.bind (fun t => t.contextInfo)))
          (jsOrOpt (mc.bind (fun m => m.audioMessage.bind (fun t => t.contextInfo)))
            (mc.bind (fun m => m.documentMessage.bind (fun t => t.contextInfo))))))
  let quotedStanzaId := jsStrOrNull (contextInfo.bind (fun c => c.stanzaId))
  let mentions := contextInfo.bind (fun c => c.mentionedJid)
  let isForwarded :=
    ((contextInfo.bind (fun c => c.isForwarded)).getD false) ||
      (((mc.bind (fun m => m.extendedTextMessage.bind (fun t => t.contextInfo))).bind
          (fun c => c.isForwarded)).getD false)
  let msgHasMedia := hasMedia messageType
  let mediaMsg :=
    jsOrOpt (mc.bind (fun m => m.imageMessage))
      (jsOrOpt (mc.bind (fun m => m.videoMessage))
        (jsOrOpt (mc.bind (fun m => m.audioMessage))
          (jsOrOpt (mc.bind (fun m => m.documentMessage))
            (mc.bind (fun m => m.stickerMessage)))))
  let mediaMimetype :=
    match mediaMsg with
    | some mm => jsStrOrNull mm.mimetype
    | none => none
  let mediaFilename := jsStrOrNull ((mc.bind (fun m => m.documentMessage)).bind (fun d => d.fileName))
  let locationData :=
    if messageType = "location" then
      match mc.bind (fun m => m.locationMessage) with
      | some lm => some (LocationData.located lm.degreesLatitude lm.degreesLongitude lm.name lm.address)
      | none =>
        match mc.bind (fun m => m.liveLocationMessage) with
        | some llm => some (LocationData.live llm.degreesLatitude llm.degreesLongitude llm.caption)
        | none => none
    else none
  let pollData :=
    if messageType = "poll" then
      match mc.bind (fun m => m.pollCreationMessage) with
      | some pm => some (PollData.mk pm.name pm.options pm.selectableOptionsCount)
      | none => none
    else none
  let contactData :=
    if messageType = "contact" then
      match mc.bind (fun m => m.contactMessage) with
      | some cm => some (ContactData.single cm.displayName cm.vcard)
      | none =>
        match mc.bind (fun m => m.contactsArrayMessage) with
        | some ca => some (ContactData.array ca.contacts)
        | none => none
    else none
  { chatJid := chatJid, messageId := messageId, senderId := senderId, isFromMe := isFromMe,
    pushName := pushName, messageType := messageType, body := body, timestamp := timestamp,
    chatType := chatType, quotedStanzaId := quotedStanzaId, mentions := mentions,
    isForwarded := isForwarded, msgHasMedia := msgHasMedia, mediaMimetype := mediaMimetype,
    mediaFilename := mediaFilename, locationData := locationData, pollData := pollData,
    contactData := contactData }

/-- The defaults record passed to Message.findOrCreate. -/
def buildMessageRow (dbId chatDbId : Nat) (quotedId : Option Nat) (n : NormalizedMsg)
    (raw : WebMessageInfo) : MessageRow :=
  { id := dbId, message_id := n.messageId, chat_id := chatDbId, sender_id := n.senderId,
    sender_name := n.pushName, is_from_me := n.isFromMe, body := n.body,
    message_type := n.messageType, has_media := n.msgHasMedia,
    media_mimetype := n.mediaMimetype, media_filename := n.mediaFilename,
    media_caption := if n.msgHasMedia then n.body else none,
    timestamp := n.timestamp, is_forwarded := n.isForwarded,
    quoted_message_id := quotedId, mentions := n.mentions, poll_data := n.pollData,
    location_data := n.locationData, contact_data := n.contactData, raw_data := raw }

/-- The chat.update performed on first insertion: refresh last_message_at
and last_message_preview (body truncated to 200 characters, or a bracketed
classification tag when the body is falsy), and seed the chat name from the
push name for inbound messages in private chats whose stored name is
absent.  The chat argument is the row captured at findOrCreate time (the
source tests chat.name on that instance). -/
def chatActivityUpdate (n : NormalizedMsg) (chat : ChatRow) (c : ChatRow) : ChatRow :=
  { c with
    last_message_at := some n.timestamp,
    last_message_preview :=
      some (if strTruthy n.body then (n.body.getD "").take 200 else "[" ++ n.messageType ++ "]"),
    name :=
      if !strTruthy chat.name && strTruthy n.pushName && !n.isFromMe && n.chatType = "private"
      then n.pushName else c.name }

/-- Find or create the Chat record (defaults: chat_id and derived
chat_type), returning the updated store and the chat instance the rest of
the loop body captures. -/
def upsertChatPhase (n : NormalizedMsg) (s : Store) : Store × ChatRow :=
  let foc := chatFindOrCreate s n.chatJid n.chatType none
  (foc.1, foc.2.1)

/-- Find or create the sender Contact when the sender id is truthy
(defaults: contact_id and the push name). -/
def upsertContactPhase (n : NormalizedMsg) (s : Store) : Store :=
  if n.senderId ≠ "" then (contactFindOrCreate s n.senderId n.pushName none none).1 else s

/-- Resolve the quoted stanza id to the internal id of an already-ingested
message, or null when absent or not found (never retried later). -/
def resolveQuotedId (s : Store) (quotedStanzaId : Option String) : Option Nat :=
  match quotedStanzaId with
  | some qid => (s.messages.find? (fun r => r.message_id == qid)).map (fun r => r.id)
  | none => none

/-- Insert the message by find-or-create on message_id; on first insertion
refresh the owning chat (activity fields and possibly the seeded name);
a duplicate leaves the store untouched. -/
def upsertMessagePhase (n : NormalizedMsg) (raw : WebMessageInfo) (chat : ChatRow)
    (s : Store) : Store :=
  let quotedMessageDbId := resolveQuotedId s n.quotedStanzaId
  let newRow := buildMessageRow s.nextMessageId chat.id quotedMessageDbId n raw
  let mfoc := messageFindOrCreate s n.messageId newRow
  if mfoc.2.2 then updateChatRow mfoc.1 chat.id (chatActivityUpdate n chat)
  else mfoc.1

/-- The store operations of the handleUpsert loop body, after the key guard:
skip protocol messages, find-or-create the chat, find-or-create the sender
contact, then resolve the quoted reference and insert the message. -/
def handleUpsertCore (now : Int) (s : Store) (key : MessageKey) (msg : WebMessageInfo) : Store :=
  let n := normalizeMessage now key msg
  if n.messageType = "protocol" then s
  else
    let cp := upsertChatPhase n s
    upsertMessagePhase n msg cp.2 (upsertContactPhase n cp.1)

/-- One iteration of the handleUpsert loop without the try/catch: messages
with a null key or falsy remoteJid or id are skipped with a warning. -/
def handleUpsertOne (now : Int) (s : Store) (msg : WebMessageInfo) : Store :=
  match msg.key with
  | none => s
  | some key =>
    if strTruthy key.remoteJid && strTruthy key.id then handleUpsertCore now s key msg
    else s

/-- MessageHandler.handleUpsert on a batch, in the failure-free case: the
loop body applied to each message in order. -/
def handleUpsert (now : Int) (s : Store) (msgs : List WebMessageInfo) : Store :=
  msgs.foldl (handleUpsertOne now) s

/-- The batch loop with its per-item error boundary made explicit: itemStep
returns the store at the point processing of the item stopped (normally the
fully processed store, or the partial writes made before a raised error)
together with the error if one was raised; the catch block logs the error
with the message id and the loop continues with the next item. -/
def handleUpsertGuarded (itemStep : Store → WebMessageInfo → Store × Option String) :
    Store → List WebMessageInfo → Store
  | s, [] => s
  | s, m :: rest => handleUpsertGuarded itemStep (itemStep s m).1 rest

/-! ## HistoryHandler.handleHistorySet (history.handler.ts)

The chat/contact phase runs inside one database transaction which is
committed before any message is touched; the transaction boundary is
modelled by the phase split: historyTransaction is the transaction body,
and the message phase runs on the committed result, outside any enclosing
transaction, in sub-batches of MESSAGE_BATCH_SIZE messages. -/

/-- A chat delta in a messaging-history.set batch.  Null and undefined name
behave identically downstream (the source applies an or-else null), so the
name is an option. -/
structure HistoryChat where
  id : String
  name : Option String := none
deriving DecidableEq

/-- A contact delta in a messaging-history.set batch. -/
structure HistoryContact where
  id : String
  name : Option String := none
  notify : Option String := none
deriving DecidableEq

/-- A messaging-history.set event. -/
structure HistorySetEvent where
  messages : List WebMessageInfo := []
  chats : List HistoryChat := []
  contacts : List HistoryContact := []
  isLatest : Bool := false
deriving DecidableEq

/-- Fixed sub-batch size for history message processing. -/
def MESSAGE_BATCH_SIZE : Nat := 100

/-- One chat delta of the history transaction: skip falsy ids; find-or-create
by chat_id with derived kind and normalized name; for an existing row,
update the name only when a name is now available and the stored name is
falsy. -/
def historyApplyChat (s : Store) (cd : HistoryChat) : Store :=
  if cd.id = "" then s
  else
    let chatType := chatTypeFromJid cd.id
    let chatName := jsStrOrNull cd.name
    let foc := chatFindOrCreate s cd.id chatType chatName
    let s1 := foc.1
    let chat := foc.2.1
    let created := foc.2.2
    if !created && chatName.isSome && !strTruthy chat.name then
      updateChatRow s1 chat.id (fun c => { c with name := chatName })
    else s1

/-- One contact delta of the history transaction: skip falsy ids;
find-or-create by contact_id with name falling back to notify. -/
def historyApplyContact (s : Store) (cd : HistoryContact) : Store :=
  if cd.id = "" then s
  else
    let contactName := jsOrStr cd.name (jsOrStr cd.notify none)
    (contactFindOrCreate s cd.id contactName none none).1

/-- The transaction body: all chat deltas, then all contact deltas. -/
def historyTransaction (s : Store) (ev : HistorySetEvent) : Store :=
  ev.contacts.foldl historyApplyContact (ev.chats.foldl historyApplyChat s)

/-- Fixed-size chunking of the message list: the slice loop
for i in steps of MESSAGE_BATCH_SIZE over messages.  The zero chunk size
case is unreachable (the size is the constant 100). -/
def chunkList {α : Type} : Nat → List α → List (List α)
  | _, [] => []
  | 0, _ :: _ => []
  | n + 1, x :: xs => ((x :: xs).take (n + 1)) :: chunkList (n + 1) (xs.drop n)
termination_by _ l => l.length
decreasing_by
  simp only [List.length_cons, List.length_drop]
  omega

/-- The message phase: each sub-batch is fed to the same ingestion pipeline
as the live path. -/
def historyMessagePhase (now : Int) (msgs : List WebMessageInfo) (s : Store) : Store :=
  (chunkList MESSAGE_BATCH_SIZE msgs).foldl (fun st batch => handleUpsert now st batch) s

/-- HistoryHandler.handleHistorySet: the committed chat/contact transaction
followed by the message phase. -/
def handleHistorySet (now : Int) (ev : HistorySetEvent) (s : Store) : Store :=
  historyMessagePhase now ev.messages (historyTransaction s ev)

/-! ## ChatHandler.handleUpdate (chat.handler.ts) -/

/-- A chats.update delta.  Every field other than the id can be absent,
explicitly null, or a value. -/
structure ChatUpdate where
  id : String
  archive : JsOpt Bool := .undef
  pin : JsOpt Int := .undef
  mute : JsOpt Int := .undef
  name : JsOpt String := .undef
  unreadCount : JsOpt Int := .undef
deriving DecidableEq

/-- The changes object built by the chat update handler: one entry per
field that passed its presence test. -/
structure ChatChanges where
  is_archived : Option Bool := none
  is_pinned : Option Bool := none
  is_muted : Option Bool := none
  name : Option (Option String) := none
  unread_count : Option Int := none
deriving DecidableEq

/-- Build the changes object field by field: archive, pin, mute and
unreadCount require a present non-null value (pin and mute are
timestamp-or-zero encodings normalized by testing for a positive value);
name requires only presence and may be an explicit null. -/
def chatBuildChanges (u : ChatUpdate) : ChatChanges :=
  { is_archived := match u.archive with | .val b => some b | _ => none
    is_pinned := match u.pin with | .val p => some (decide (p > 0)) | _ => none
    is_muted := match u.mute with | .val m => some (decide (m > 0)) | _ => none
    name := u.name.presentValue
    unread_count := match u.unreadCount with | .val n => some n | _ => none }

/-- Object.keys(changes).length is zero. -/
def chatChangesIsEmpty (ch : ChatChanges) : Bool :=
  ch.is_archived.isNone && ch.is_pinned.isNone && ch.is_muted.isNone &&
    ch.name.isNone && ch.unread_count.isNone

/-- chat.update(changes): overwrite exactly the fields present in the
changes object. -/
def chatRowApplyChanges (ch : ChatChanges) (c : ChatRow) : ChatRow :=
  { c with
    is_archived := ch.is_archived.getD c.is_archived
    is_pinned := ch.is_pinned.getD c.is_pinned
    is_muted := ch.is_muted.getD c.is_muted
    name := match ch.name with | some v => v | none => c.name
    unread_count := ch.unread_count.getD c.unread_count }

/-- One chats.update delta: skip falsy ids and unknown chats; build the
changes object; apply it when any change is present. -/
def chatHandleUpdateOne (s : Store) (u : ChatUpdate) : Store :=
  if u.id = "" then s
  else
    match findChatByJid s u.id with
    | none => s
    | some chat =>
      let changes := chatBuildChanges u
      if !chatChangesIsEmpty changes then
        updateChatRow s chat.id (chatRowApplyChanges changes)
      else s

/-- ChatHandler.handleUpdate over a batch of deltas. -/
def chatHandleUpdate (s : Store) (updates : List ChatUpdate) : Store :=
  updates.foldl chatHandleUpdateOne s

/-! ## ContactHandler.handleUpdate (contact.handler.ts) -/

/-- A contacts.update delta. -/
structure ContactUpdate where
  id : String
  name : JsOpt String := .undef
  notify : JsOpt String := .undef
  imgUrl : JsOpt String := .undef
  status : JsOpt String := .undef
deriving DecidableEq

/-- The contact name carried by a delta: update.name or-else update.notify
or-else null, with JavaScript falsiness (null, undefined and the empty
string all fall through). -/
def contactResolveName (u : ContactUpdate) : Option String :=
  match u.name.strTruthyVal with
  | some s => some s
  | none => u.notify.strTruthyVal

/-- The changes object built by the contact update handler: the name only
when the resolved name is non-null; avatar_url and about whenever the
delta field is present, including an explicit null. -/
structure ContactChanges where
  name : Option String := none
  avatar_url : Option (Option String) := none
  about : Option (Option String) := none
deriving DecidableEq

/-- Build the contact changes object from the delta. -/
def contactBuildChanges (u : ContactUpdate) : ContactChanges :=
  { name := contactResolveName u
    avatar_url := u.imgUrl.presentValue
    about := u.status.presentValue }

/-- Object.keys(changes).length is zero. -/
def contactChangesIsEmpty (ch : ContactChanges) : Bool :=
  ch.name.isNone && ch.avatar_url.isNone && ch.about.isNone

/-- contact.update(changes): overwrite exactly the fields present in the
changes object; the handler adds a last_seen_at bump to every non-empty
changes object before applying it. -/
def contactRowApplyChanges (now : Int) (ch : ContactChanges) (c : ContactRow) : ContactRow :=
  { c with
    name := match ch.name with | some n => some n | none => c.name
    avatar_url := match ch.avatar_url with | some v => v | none => c.avatar_url
    about := match ch.about with | some v => v | none => c.about
    last_seen_at := some now }

/-- One contacts.update delta: skip falsy ids; find-or-create with the
resolved name and normalized avatar and status defaults; for an existing
row build the changes and, when any change is present, apply them together
with the last_seen_at bump. -/
def contactHandleUpdateOne (now : Int) (s : Store) (u : ContactUpdate) : Store :=
  if u.id = "" then s
  else
    let contactName := contactResolveName u
    let foc := contactFindOrCreate s u.id contactName u.imgUrl.strTruthyVal u.status.strTruthyVal
    let s1 := foc.1
    let contact := foc.2.1
    let created := foc.2.2
    if created then s1
    else
      let changes := contactBuildChanges u
      if !contactChangesIsEmpty changes then
        updateContactRow s1 contact.id (contactRowApplyChanges now changes)
      else s1

/-- ContactHandler.handleUpdate over a batch of deltas. -/
def contactHandleUpdate (now : Int) (s : Store) (updates : List ContactUpdate) : Store :=
  updates.foldl (contactHandleUpdateOne now) s

/-- Field-level description of one chats.update delta on a found row, as
the code applies it: a field absent from the payload leaves the stored
value untouched; archive, pin, mute and unreadCount also ignore an
explicit null; the name field is applied whenever present, an explicit
null clearing it; every other column is untouched. -/
def chatDeltaSpec (u : ChatUpdate) (c : ChatRow) : ChatRow :=
  { c with
    is_archived := match u.archive with | .val b => b | _ => c.is_archived
    is_pinned := match u.pin with | .val p => decide (p > 0) | _ => c.is_pinned
    is_muted := match u.mute with | .val m => decide (m > 0) | _ => c.is_muted
    name := match u.name with | .undef => c.name | .null => none | .val v => some v
    unread_count := match u.unreadCount with | .val n => n | _ => c.unread_count }

/-- Field-level description of one contacts.update delta on a found row, as
the code applies it: the stored name is replaced only by a non-null
resolved name (explicit null never clears it); avatar_url and about are
overwritten whenever the delta field is present, an explicit null clearing
them; last_seen_at is bumped exactly when some change is present. -/
def contactDeltaSpec (now : Int) (u : ContactUpdate) (c : ContactRow) : ContactRow :=
  { c with
    name := match contactResolveName u with | some nm => some nm | none => c.name
    avatar_url := match u.imgUrl with | .undef => c.avatar_url | .null => none | .val v => some v
    about := match u.status with | .undef => c.about | .null => none | .val v => some v
    last_seen_at :=
      if (contactResolveName u).isSome || u.imgUrl.presentValue.isSome ||
          u.status.presentValue.isSome
      then some now else c.last_seen_at }

/-! ## GroupHandler.handleGroupUpdate (chat.handler.ts, group section) -/

/-- A groups.update delta; optional fields are either absent or a value
(the Baileys interface does not send null here). -/
structure GroupUpdate where
  id : String
  subject : Option String := none
  owner : Option String := none
  desc : Option String := none
  announce : Option Bool := none
  restrict : Option Bool := none
  joinApprovalMode : Option Bool := none
  memberAddMode : Option Bool := none
  ephemeralDuration : Option Int := none
deriving DecidableEq

/-- The changes object built by handleGroupUpdate: one entry per present
delta field. -/
structure GroupChanges where
  subject : Option String := none
  owner : Option String := none
  description : Option String := none
  announce : Option Bool := none
  restrict_mode : Option Bool := none
  join_approval_mode : Option Bool := none
  member_add_mode : Option Bool := none
  ephemeral_duration : Option Int := none
deriving DecidableEq

/-- Build the changes object from the delta (field present if and only if
the delta carries it). -/
def groupBuildChanges (u : GroupUpdate) : GroupChanges :=
  { subject := u.subject, owner := u.owner, description := u.desc,
    announce := u.announce, restrict_mode := u.restrict,
    join_approval_mode := u.joinApprovalMode, member_add_mode := u.memberAddMode,
    ephemeral_duration := u.ephemeralDuration }

/-- Object.keys(changes).length is zero. -/
def groupChangesIsEmpty (ch : GroupChanges) : Bool :=
  ch.subject.isNone && ch.owner.isNone && ch.description.isNone && ch.announce.isNone &&
    ch.restrict_mode.isNone && ch.join_approval_mode.isNone && ch.member_add_mode.isNone &&
    ch.ephemeral_duration.isNone

/-- Apply the changes object to a group_metadata row (the row.update call;
also used on the defaults row spread at creation). -/
def applyGroupChanges (ch : GroupChanges) (g : GroupMetadataRow) : GroupMetadataRow :=
  { g with
    subject := match ch.subject with | some v => some v | none => g.subject,
    owner := match ch.owner with | some v => some v | none => g.owner,
    description := match ch.description with | some v => some v | none => g.description,
    announce := ch.announce.getD g.announce,
    restrict_mode := ch.restrict_mode.getD g.restrict_mode,
    join_approval_mode := ch.join_approval_mode.getD g.join_approval_mode,
    member_add_mode := ch.member_add_mode.getD g.member_add_mode,
    ephemeral_duration :=
      match ch.ephemeral_duration with | some v => some v | none => g.ephemeral_duration }

/-- GroupMetadata.findOrCreate keyed on the unique chat foreign key;
defaults is the row built from the chat id spread with the changes. -/
def groupMetaFindOrCreate (s : Store) (chatDbId : Nat) (defaults : GroupMetadataRow) :
    Store × GroupMetadataRow × Bool :=
  match findGroupMetaByChatId s chatDbId with
  | some g => (s, g, false)
  | none =>
    ({ s with
        groupMetadata := s.groupMetadata ++ [defaults],
        nextGroupMetaId := s.nextGroupMetaId + 1 }, defaults, true)

/-- One groups.update delta: skip falsy ids and unknown chats; when the
subject is present, also overwrite the chat display name with it
(unconditionally); when any change is present, find-or-create the
group_metadata row keyed on the chat with the changes spread into the
defaults, and apply row.update(changes) to an existing row. -/
def groupHandleUpdateOne (s : Store) (u : GroupUpdate) : Store :=
  if u.id = "" then s
  else
    match findChatByJid s u.id with
    | none => s
    | some chat =>
      let changes := groupBuildChanges u
      let s1 :=
        match u.subject with
        | some subj => updateChatRow s chat.id (fun c => { c with name := some subj })
        | none => s
      if !groupChangesIsEmpty changes then
        let defaults := applyGroupChanges changes
          ({ id := s1.nextGroupMetaId, chat_id := chat.id } : GroupMetadataRow)
        let foc := groupMetaFindOrCreate s1 chat.id defaults
        if foc.2.2 then foc.1
        else updateGroupMetaRow foc.1 foc.2.1.id (applyGroupChanges changes)
      else s1

/-- GroupHandler.handleGroupUpdate over a batch of deltas. -/
def groupHandleUpdate (s : Store) (updates : List GroupUpdate) : Store :=
  updates.foldl groupHandleUpdateOne s

/-! ## WhatsAppService (whatsapp.service.ts): connection lifecycle

State of the singleton service instance, plus the set of scheduled
reconnect timers (the setTimeout callbacks created by the close handler,
which the source never cancels).  Socket handles are numbered by creation
order.  The connect call is split at its await point: connectBegin is the
in-flight guard and the flag set (everything before the socket exists) and
connectFinish is the socket creation; a concurrent connect call lands
between the two. -/

/-- Baileys DisconnectReason.loggedOut. -/
def DISCONNECT_REASON_LOGGED_OUT : Nat := 401

/-- maxReconnectAttempts. -/
def maxReconnectAttempts : Nat := 10

/-- The mutable state of the service: active socket handle, reconnect
counter, connecting flag, pending reconnect timer delays (in scheduling
order), and the next socket handle number. -/
structure WAService where
  sock : Option Nat := none
  reconnectAttempts : Nat := 0
  isConnecting : Bool := false
  pending : List Nat := []
  nextSock : Nat := 0
deriving DecidableEq

/-- A fresh service instance. -/
def waInit : WAService := {}

/-- What a connect call produces: the socket handle it returns, or a thrown
error. -/
inductive ConnectResult where
  | handle : Nat → ConnectResult
  | error : ConnectResult
deriving DecidableEq

/-- The head of connect: if a connection attempt is already in flight,
return the existing socket when there is one and otherwise throw; when not
in flight, set the connecting flag and proceed (the some case of the second
component is the early exit). -/
def connectBegin (s : WAService) : WAService × Option ConnectResult :=
  if s.isConnecting then
    match s.sock with
    | some h => (s, some (ConnectResult.handle h))
    | none => (s, some ConnectResult.error)
  else ({ s with isConnecting := true }, none)

/-- The tail of connect after the awaited auth state resolves: create the
socket (a fresh handle), attach the handlers, and return it.  The
connecting flag stays set until a connection.update event clears it. -/
def connectFinish (s : WAService) : WAService × ConnectResult :=
  ({ s with sock := some s.nextSock, nextSock := s.nextSock + 1 },
    ConnectResult.handle s.nextSock)

/-- A whole connect call with no interleaving at the await point. -/
def connectStep (s : WAService) : WAService × ConnectResult :=
  match connectBegin s with
  | (s1, some r) => (s1, r)
  | (s1, none) => connectFinish s1

/-- The connection.update close branch: clear the connecting flag; on a
logged-out status drop the socket and stop; otherwise, when the attempt
counter is below the maximum, increment it and schedule a reconnect after
min(1000 times 2 to the counter, 60000) milliseconds; when the budget is
exhausted, give up and drop the socket. -/
def closeStep (statusCode : Option Nat) (s : WAService) : WAService :=
  let isLoggedOut := statusCode = some DISCONNECT_REASON_LOGGED_OUT
  let s := { s with isConnecting := false }
  if isLoggedOut then { s with sock := none }
  else if s.reconnectAttempts < maxReconnectAttempts then
    let attempts := s.reconnectAttempts + 1
    let delay := min (1000 * 2 ^ attempts) 60000
    { s with reconnectAttempts := attempts, pending := s.pending ++ [delay] }
  else { s with sock := none }

/-- The connection.update open branch: reset the attempt counter and clear
the connecting flag. -/
def openStep (s : WAService) : WAService :=
  { s with reconnectAttempts := 0, isConnecting := false }

/-- A scheduled reconnect timer fires: the callback unconditionally calls
connect again (errors from it are only logged).  Firing with no pending
timer is a no-op. -/
def timerFireStep (s : WAService) : WAService × ConnectResult :=
  match s.pending with
  | [] => (s, ConnectResult.error)
  | _ :: rest => connectStep { s with pending := rest }

/-! ## Concrete instances used by the claim theorems and witnesses -/

/-- Number of stored Message rows carrying a given external message id. -/
def countMessagesWithId (s : Store) (mid : String) : Nat :=
  (s.messages.filter (fun r => r.message_id == mid)).length

/-- Concrete message event used to witness C1. -/
def msgC1 : WebMessageInfo :=
  { key := some { remoteJid := some "111@s.whatsapp.net", id := some "MID1", fromMe := some false },
    message := some { keys := ["conversation"], conversation := some "hello" },
    pushName := some "Alice", messageTimestamp := some (.num 1700000000) }

/-- Store obtained by a first ingestion of msgC1. -/
def storeC1 : Store := handleUpsertOne 5 emptyStore msgC1

/-- A payload carrying both a plain conversation key and an image key, with
the conversation key first in the payload key order. -/
def payloadTextFirst : IMessage :=
  { keys := ["conversation", "imageMessage"]
    conversation := some "hi"
    imageMessage := some ({} : MediaMessage) }

/-- The same payload with the image key first in the payload key order. -/
def payloadImageFirst : IMessage :=
  { keys := ["imageMessage", "conversation"]
    conversation := some "hi"
    imageMessage := some ({} : MediaMessage) }

/-- A payload with an unrecognized leading key, then the image key, then the
conversation key. -/
def payloadUnknownThenImage : IMessage :=
  { keys := ["someFutureKey", "imageMessage", "conversation"]
    conversation := some "hi"
    imageMessage := some ({} : MediaMessage) }

/-- Concrete history event used to witness C5: one existing chat with a
truthy name, one with a falsy name, and 3 messages. -/
def histEvC5 : HistorySetEvent :=
  { messages := [msgC1]
    chats := [{ id := "222@g.us", name := some "Fresh" }]
    contacts := [{ id := "c9", name := some "Carol" }]
    isLatest := true }

/-- A stored group chat that already carries a name. -/
def chatRowKept : ChatRow :=
  { id := 1, chat_id := "222@g.us", chat_type := "group", name := some "Kept" }

/-- The same stored chat without a name. -/
def chatRowUnnamed : ChatRow :=
  { id := 1, chat_id := "222@g.us", chat_type := "group", name := none }

/-- Store holding only chatRowKept. -/
def storeKept : Store := { emptyStore with chats := [chatRowKept] }

/-- Store holding only chatRowUnnamed. -/
def storeUnnamed : Store := { emptyStore with chats := [chatRowUnnamed] }

/-- A plain text message event with the given external id. -/
def mkTextMsg (mid : String) : WebMessageInfo :=
  { key := some { remoteJid := some "111@s.whatsapp.net", id := some mid, fromMe := some false },
    message := some { keys := ["conversation"], conversation := some "hello" },
    pushName := some "Alice", messageTimestamp := some (.num 1700000000) }

/-- The message key of mkTextMsg. -/
def mkTextKey (mid : String) : MessageKey :=
  { remoteJid := some "111@s.whatsapp.net", id := some mid, fromMe := some false }

/-- A per-item step that raises a persistence error on the third batch item
and behaves like the handler on every other item. -/
def c6step : Store → WebMessageInfo → Store × Option String :=
  fun t m =>
    if m = mkTextMsg "A3" then (t, some "insert failed")
    else (handleUpsertOne 0 t m, none)

/-- A stored contact named Alice. -/
def contactRowAlice : ContactRow := { id := 1, contact_id := "c1", name := some "Alice" }

/-- Store holding only contactRowAlice. -/
def storeAlice : Store := { emptyStore with contacts := [contactRowAlice] }

/-- A stored archived private chat. -/
def chatRowArchived : ChatRow :=
  { id := 1, chat_id := "111@s.whatsapp.net", chat_type := "private", is_archived := true }

/-- Store holding only chatRowArchived. -/
def storeArchived : Store := { emptyStore with chats := [chatRowArchived] }

/-- A stored group chat row that already carries a name Old. -/
def chatRowOldName : ChatRow :=
  { id := 4, chat_id := "333@g.us", chat_type := "group", name := some "Old" }

/-- Store holding chatRowOldName and no group metadata. -/
def storeOldName : Store := { emptyStore with chats := [chatRowOldName] }

/-! ## Helper lemmas -/

/-- find? commutes with a map that does not change the predicate value. -/
theorem find?_map_comm {α : Type} (g : α → α) (p : α → Bool) (hp : ∀ a, p (g a) = p a) :
    ∀ l : List α, (l.map g).find? p = (l.find? p).map g
  | [] => by simp
  | x :: xs => by
    by_cases h : p x
    · rw [List.map_cons, List.find?_cons_of_pos _ (by rw [hp]; exact h),
        List.find?_cons_of_pos _ h]
      rfl
    · rw [List.map_cons, List.find?_cons_of_neg _ (by rw [hp]; simpa using h),
        List.find?_cons_of_neg _ h, find?_map_comm g p hp xs]

/-- A list whose filter is non-empty has a successful find?. -/
theorem find?_eq_some_of_filter_pos {α : Type} (p : α → Bool) :
    ∀ l : List α, 0 < (l.filter p).length → ∃ r, l.find? p = some r
  | [] => by simp
  | x :: xs => by
    by_cases h : p x
    · exact fun _ => ⟨x, List.find?_cons_of_pos _ h⟩
    · intro hl
      rw [List.filter_cons_of_neg (by simpa using h)] at hl
      obtain ⟨r, hr⟩ := find?_eq_some_of_filter_pos p xs hl
      exact ⟨r, by rw [List.find?_cons_of_neg _ (by simpa using h)]; exact hr⟩

/-- Updating a chat row does not disturb lookup by jid: the looked-up row is
the (possibly rewritten) row found before, provided the update preserves
chat_id. -/
theorem findChatByJid_updateChatRow (s : Store) (cid : Nat) (f : ChatRow → ChatRow)
    (hf : ∀ c, (f c).chat_id = c.chat_id) (jid : String) :
    findChatByJid (updateChatRow s cid f) jid =
      (findChatByJid s jid).map (fun c => if c.id == cid then f c else c) := by
  unfold findChatByJid updateChatRow
  exact find?_map_comm _ _ (fun a => by by_cases h : a.id == cid <;> simp [h, hf]) s.chats

/-- Specialization: the row found before the update is found rewritten. -/
theorem findChatByJid_updateChatRow_self (s : Store) (f : ChatRow → ChatRow)
    (hf : ∀ c, (f c).chat_id = c.chat_id) (jid : String) (c : ChatRow)
    (h : findChatByJid s jid = some c) :
    findChatByJid (updateChatRow s c.id f) jid = some (f c) := by
  rw [findChatByJid_updateChatRow s c.id f hf jid, h]
  simp

/-- Contact analogue of findChatByJid_updateChatRow_self. -/
theorem findContactById_updateContactRow_self (s : Store) (f : ContactRow → ContactRow)
    (hf : ∀ c, (f c).contact_id = c.contact_id) (cid : String) (c : ContactRow)
    (h : findContactById s cid = some c) :
    findContactById (updateContactRow s c.id f) cid = some (f c) := by
  unfold findContactById updateContactRow
  unfold findContactById at h
  rw [find?_map_comm _ _ (fun a => by by_cases hx : a.id == c.id <;> simp [hx, hf]) s.contacts,
    h]
  simp

/-- The chat phase of message ingestion does not touch the messages table. -/
theorem upsertChatPhase_messages (n : NormalizedMsg) (s : Store) :
    ((upsertChatPhase n s).1).messages = s.messages := by
  unfold upsertChatPhase chatFindOrCreate
  cases h : findChatByJid s n.chatJid <;> simp [h]

/-- The contact phase of message ingestion does not touch the messages
table. -/
theorem upsertContactPhase_messages (n : NormalizedMsg) (s : Store) :
    (upsertContactPhase n s).messages = s.messages := by
  unfold upsertContactPhase contactFindOrCreate
  by_cases h : n.senderId ≠ "" <;> simp [h]
  cases hc : findContactById s n.senderId <;> simp [hc]

/-- A duplicate message id makes the message phase a complete no-op. -/
theorem upsertMessagePhase_found (n : NormalizedMsg) (raw : WebMessageInfo) (chat : ChatRow)
    (s : Store) (r : MessageRow)
    (hf : s.messages.find? (fun x => x.message_id == n.messageId) = some r) :
    upsertMessagePhase n raw chat s = s := by
  unfold upsertMessagePhase messageFindOrCreate
  rw [hf]
  simp

/-- A fresh message id appends exactly one row carrying that id. -/
theorem upsertMessagePhase_absent (n : NormalizedMsg) (raw : WebMessageInfo) (chat : ChatRow)
    (s : Store) (hf : s.messages.find? (fun x => x.message_id == n.messageId) = none) :
    (upsertMessagePhase n raw chat s).messages =
      s.messages ++ [buildMessageRow s.nextMessageId chat.id
        (resolveQuotedId s n.quotedStanzaId) n raw] := by
  unfold upsertMessagePhase messageFindOrCreate
  rw [hf]
  simp [updateChatRow]

/-- Message ingestion only ever appends to the messages table. -/
theorem handleUpsertOne_messages_append (now : Int) (s : Store) (msg : WebMessageInfo) :
    ∃ tl, (handleUpsertOne now s msg).messages = s.messages ++ tl := by
  unfold handleUpsertOne
  cases hk : msg.key with
  | none => exact ⟨[], by simp⟩
  | some key =>
    simp only []
    by_cases hg : strTruthy key.remoteJid && strTruthy key.id
    · rw [if_pos hg]
      unfold handleUpsertCore
      by_cases hp : (normalizeMessage now key msg).messageType = "protocol"
      · rw [if_pos hp]; exact ⟨[], by simp⟩
      · rw [if_neg hp]
        have hmsgs : (upsertContactPhase (normalizeMessage now key msg)
            (upsertChatPhase (normalizeMessage now key msg) s).1).messages = s.messages := by
          rw [upsertContactPhase_messages, upsertChatPhase_messages]
        cases hf : (upsertContactPhase (normalizeMessage now key msg)
            (upsertChatPhase (normalizeMessage now key msg) s).1).messages.find?
            (fun x => x.message_id == (normalizeMessage now key msg).messageId) with
        | some r =>
          rw [upsertMessagePhase_found _ _ _ _ r hf]
          exact ⟨[], by rw [hmsgs]; simp⟩
        | none =>
          rw [upsertMessagePhase_absent _ _ _ _ hf, hmsgs]
          exact ⟨_, rfl⟩
    · rw [if_neg hg]; exact ⟨[], by simp⟩

/-- Rows already in the messages table survive message ingestion. -/
theorem handleUpsertOne_messages_mono (now : Int) (s : Store) (msg : WebMessageInfo)
    (r : MessageRow) (h : r ∈ s.messages) : r ∈ (handleUpsertOne now s msg).messages := by
  obtain ⟨tl, htl⟩ := handleUpsertOne_messages_append now s msg
  rw [htl]
  exact List.mem_append_left _ h

/-- When the external message id is already present, ingestion leaves the
messages table unchanged. -/
theorem handleUpsertOne_messages_found (now : Int) (s : Store) (msg : WebMessageInfo)
    (key : MessageKey) (mid : String) (r : MessageRow)
    (hk : msg.key = some key) (hid : key.id = some mid)
    (hf : s.messages.find? (fun x => x.message_id == mid) = some r) :
    (handleUpsertOne now s msg).messages = s.messages := by
  unfold handleUpsertOne
  rw [hk]
  simp only []
  by_cases hg : strTruthy key.remoteJid && strTruthy key.id
  · rw [if_pos hg]
    unfold handleUpsertCore
    by_cases hp : (normalizeMessage now key msg).messageType = "protocol"
    · rw [if_pos hp]
    · rw [if_neg hp]
      have hmid : (normalizeMessage now key msg).messageId = mid := by
        show key.id.getD "" = mid
        rw [hid]
        rfl
      have hmsgs : (upsertContactPhase (normalizeMessage now key msg)
          (upsertChatPhase (normalizeMessage now key msg) s).1).messages = s.messages := by
        rw [upsertContactPhase_messages, upsertChatPhase_messages]
      have hf2 : (upsertContactPhase (normalizeMessage now key msg)
          (upsertChatPhase (normalizeMessage now key msg) s).1).messages.find?
          (fun x => x.message_id == (normalizeMessage now key msg).messageId) = some r := by
        rw [hmsgs, hmid]
        exact hf
      rw [upsertMessagePhase_found _ _ _ _ r hf2, hmsgs]
  · rw [if_neg hg]

/-- After ingesting a message with a truthy key and a non-protocol type, a
row with its external id is present (found as a duplicate, or freshly
inserted). -/
theorem handleUpsertOne_present (now : Int) (s : Store) (msg : WebMessageInfo)
    (key : MessageKey)
    (hk : msg.key = some key) (htr : strTruthy key.remoteJid = true)
    (hti : strTruthy key.id = true)
    (hp : (normalizeMessage now key msg).messageType ≠ "protocol") :
    ∃ row ∈ (handleUpsertOne now s msg).messages,
      row.message_id = (normalizeMessage now key msg).messageId := by
  unfold handleUpsertOne
  rw [hk]
  simp only []
  rw [if_pos (by rw [htr, hti]; rfl)]
  unfold handleUpsertCore
  rw [if_neg hp]
  simp only []
  have hmsgs : (upsertContactPhase (normalizeMessage now key msg)
      (upsertChatPhase (normalizeMessage now key msg) s).1).messages = s.messages := by
    rw [upsertContactPhase_messages, upsertChatPhase_messages]
  cases hf : (upsertContactPhase (normalizeMessage now key msg)
      (upsertChatPhase (normalizeMessage now key msg) s).1).messages.find?
      (fun x => x.message_id == (normalizeMessage now key msg).messageId) with
  | some r =>
    refine ⟨r, ?_, ?_⟩
    · rw [upsertMessagePhase_found _ _ _ _ r hf]
      exact List.mem_of_find?_eq_some hf
    · have := List.find?_some hf
      simpa using this
  | none =>
    rw [upsertMessagePhase_absent _ _ _ _ hf]
    exact ⟨_, List.mem_append_right _ (List.mem_singleton_self _), rfl⟩

/-! ## Claim theorems -/

/-- Claim C1: for every message event whose external message id already
exists in the store, ingesting the event again leaves the store with
exactly one Message row for that id and completes without error — the
duplicate is detected by find-or-create on the external id and treated as
a logged no-op (the messages table is not changed at all). -/
theorem ingest_duplicate_idempotent (now : Int) (s : Store) (msg : WebMessageInfo)
    (key : MessageKey) (mid : String)
    (hk : msg.key = some key) (hid : key.id = some mid)
    (hone : countMessagesWithId s mid = 1) :
    (handleUpsertOne now s msg).messages = s.messages ∧
    countMessagesWithId (handleUpsertOne now s msg) mid = 1 := by
  obtain ⟨r, hr⟩ := find?_eq_some_of_filter_pos (fun x => x.message_id == mid) s.messages
    (by unfold countMessagesWithId at hone; omega)
  have hm := handleUpsertOne_messages_found now s msg key mid r hk hid hr
  refine ⟨hm, ?_⟩
  unfold countMessagesWithId
  rw [hm]
  exact hone

/-- Witness for C1: re-ingesting msgC1 into the store that already holds it
leaves exactly one row with its id. -/
theorem ingest_duplicate_idempotent_witness :
    countMessagesWithId storeC1 "MID1" = 1 ∧
    (handleUpsertOne 5 storeC1 msgC1).messages = storeC1.messages ∧
    countMessagesWithId (handleUpsertOne 5 storeC1 msgC1) "MID1" = 1 := by
  have h := ingest_duplicate_idempotent 5 storeC1 msgC1
    { remoteJid := some "111@s.whatsapp.net", id := some "MID1", fromMe := some false }
    "MID1" rfl rfl (by decide)
  exact ⟨by decide, h.1, h.2⟩

/-- Claim C2 counterexample: a payload holding both the plain conversation
key and the image key classifies as chat (text) when the conversation key
comes first in the payload key order, not as image; with the two keys in
the opposite order it classifies as image, so the result depends on the
payload key order rather than on a fixed priority order. -/
theorem classification_priority_counterexample :
    resolveMessageType (some payloadTextFirst) = "chat" ∧
    ("chat" : String) ≠ "image" ∧
    resolveMessageType (some payloadImageFirst) = "image" := by
  exact ⟨rfl, by decide, rfl⟩

/-- Claim C2 (amended): classification scans the payload keys in the order
they appear in the payload object; the first key recognized by the fixed
key-to-kind table decides the type, so a payload listing the conversation
key before the image key classifies as chat, and the result depends on the
payload key order. -/
theorem classification_first_recognized_key (mc : IMessage) (pre post : List String)
    (k t : String) (hkeys : mc.keys = pre ++ k :: post)
    (hpre : ∀ x ∈ pre, classifyKey x = none) (hk : classifyKey k = some t) :
    resolveMessageType (some mc) = t := by
  show scanKeys mc.keys = t
  rw [hkeys]
  clear hkeys
  induction pre with
  | nil => simp [scanKeys, hk]
  | cons a as ih =>
    have ha : classifyKey a = none := hpre a (by simp)
    rw [List.cons_append]
    show (match classifyKey a with
      | some t => t
      | none => scanKeys (as ++ k :: post)) = t
    rw [ha]
    exact ih (fun x hx => hpre x (by simp [hx]))

/-- Witness for the amended C2 at a concrete payload: an unrecognized key
followed by the image key, with the conversation key later. -/
theorem classification_first_recognized_key_witness :
    resolveMessageType (some payloadUnknownThenImage) = "image" :=
  classification_first_recognized_key payloadUnknownThenImage
    ["someFutureKey"] ["conversation"] "imageMessage" "image" rfl
    (by intro x hx; simp at hx; rw [hx]; rfl) rfl

/-- Claim C3: for a connection closure that is not logged out, while the
attempt counter is below 10 it is incremented to n and a reconnect is
scheduled after exactly min(1000 times 2 to the n, 60000) milliseconds
(the socket handle is kept); once the 10 attempts are used up, no further
reconnect is scheduled and the handle is dropped; a successful open
transition resets the counter to zero. -/
theorem backoff_schedule (s : WAService) (statusCode : Option Nat)
    (h : statusCode ≠ some DISCONNECT_REASON_LOGGED_OUT) :
    (s.reconnectAttempts < maxReconnectAttempts →
      (closeStep statusCode s).reconnectAttempts = s.reconnectAttempts + 1 ∧
      (closeStep statusCode s).pending =
        s.pending ++ [min (1000 * 2 ^ (s.reconnectAttempts + 1)) 60000] ∧
      (closeStep statusCode s).sock = s.sock) ∧
    (maxReconnectAttempts ≤ s.reconnectAttempts →
      (closeStep statusCode s).pending = s.pending ∧
      (closeStep statusCode s).sock = none) ∧
    (openStep s).reconnectAttempts = 0 := by
  refine ⟨fun hlt => ?_, fun hge => ?_, rfl⟩
  · unfold closeStep
    simp only []
    rw [if_neg h, if_pos hlt]
    exact ⟨rfl, rfl, rfl⟩
  · unfold closeStep
    simp only []
    rw [if_neg h, if_neg (by simpa using Nat.not_lt.mpr hge)]
    exact ⟨rfl, rfl⟩

/-- Witness for C3 at a concrete state: a transient closure (status 408)
with 3 attempts used schedules a 16000 ms reconnect; with 10 attempts used
it drops the handle without scheduling; open resets the counter. -/
theorem backoff_schedule_witness :
    (closeStep (some 408) ⟨some 0, 3, true, [], 1⟩).reconnectAttempts = 4 ∧
    (closeStep (some 408) ⟨some 0, 3, true, [], 1⟩).pending = [16000] ∧
    (closeStep (some 408) ⟨some 0, 3, true, [], 1⟩).sock = some 0 ∧
    (closeStep (some 408) ⟨some 0, 10, true, [7], 1⟩).pending = [7] ∧
    (closeStep (some 408) ⟨some 0, 10, true, [7], 1⟩).sock = none ∧
    (openStep ⟨some 0, 10, true, [], 1⟩).reconnectAttempts = 0 := by
  have h1 := backoff_schedule ⟨some 0, 3, true, [], 1⟩ (some 408) (by decide)
  have h2 := backoff_schedule ⟨some 0, 10, true, [7], 1⟩ (some 408) (by decide)
  have e1 := h1.1 (by decide)
  have e2 := h2.2.1 (by decide)
  exact ⟨e1.1, e1.2.1, e1.2.2, e2.1, e2.2, h2.2.2⟩

/-- Claim C4 counterexample: a transient closure schedules a reconnect
timer; a later logged-out closure drops the handle but leaves the timer
pending, and when the timer fires it is not skipped — it calls connect
again and starts a fresh connection attempt (new socket handle, connecting
flag set) after the terminal transition. -/
theorem loggedout_pending_timer_counterexample :
    (closeStep (some DISCONNECT_REASON_LOGGED_OUT)
        (closeStep (some 408) (connectStep waInit).1)).sock = none ∧
    (closeStep (some DISCONNECT_REASON_LOGGED_OUT)
        (closeStep (some 408) (connectStep waInit).1)).pending = [2000] ∧
    (timerFireStep (closeStep (some DISCONNECT_REASON_LOGGED_OUT)
        (closeStep (some 408) (connectStep waInit).1))).1.sock = some 1 ∧
    (timerFireStep (closeStep (some DISCONNECT_REASON_LOGGED_OUT)
        (closeStep (some 408) (connectStep waInit).1))).1.isConnecting = true := by
  decide

/-- Claim C4 (amended): a logged-out closure itself never schedules a
reconnect (whatever the remaining attempt budget), drops the handle and
clears the connecting flag; but a reconnect already scheduled before the
terminal transition is not cancelled: its timer remains pending, and when
it fires, connect runs again and starts a fresh connection attempt. -/
theorem loggedout_never_schedules (s : WAService) :
    (closeStep (some DISCONNECT_REASON_LOGGED_OUT) s).sock = none ∧
    (closeStep (some DISCONNECT_REASON_LOGGED_OUT) s).pending = s.pending ∧
    (closeStep (some DISCONNECT_REASON_LOGGED_OUT) s).isConnecting = false ∧
    (∀ d rest, s.pending = d :: rest →
      (timerFireStep (closeStep (some DISCONNECT_REASON_LOGGED_OUT) s)).1.isConnecting = true ∧
      (timerFireStep (closeStep (some DISCONNECT_REASON_LOGGED_OUT) s)).1.sock =
        some s.nextSock) := by
  refine ⟨?_, ?_, ?_, ?_⟩
  · unfold closeStep; simp
  · unfold closeStep; simp
  · unfold closeStep; simp
  · intro d rest hp
    unfold closeStep timerFireStep connectStep connectBegin connectFinish
    simp [hp]

/-- Witness for the amended C4 at a concrete state with one pending timer. -/
theorem loggedout_never_schedules_witness :
    (closeStep (some DISCONNECT_REASON_LOGGED_OUT) ⟨some 0, 1, false, [2000], 1⟩).sock = none ∧
    (closeStep (some DISCONNECT_REASON_LOGGED_OUT) ⟨some 0, 1, false, [2000], 1⟩).pending =
      [2000] ∧
    (timerFireStep (closeStep (some DISCONNECT_REASON_LOGGED_OUT)
        ⟨some 0, 1, false, [2000], 1⟩)).1.isConnecting = true ∧
    (timerFireStep (closeStep (some DISCONNECT_REASON_LOGGED_OUT)
        ⟨some 0, 1, false, [2000], 1⟩)).1.sock = some 1 := by
  have h := loggedout_never_schedules ⟨some 0, 1, false, [2000], 1⟩
  exact ⟨h.1, h.2.1, (h.2.2.2 2000 [] rfl).1, (h.2.2.2 2000 [] rfl).2⟩

/-- Claim C8 counterexample: while the first connect call is still awaiting
the auth state (connecting flag set, no socket yet), a concurrent connect
call throws instead of returning an in-flight handle — so connect does not
return the existing in-flight handle in every in-flight state. -/
theorem connect_inflight_counterexample :
    (connectBegin waInit).1.isConnecting = true ∧
    (connectBegin waInit).1.sock = none ∧
    (connectBegin (connectBegin waInit).1).2 = some ConnectResult.error := by
  decide

/-- Claim C8 (amended): a connect call made while a connection attempt is in
flight never starts a second attempt (the state is unchanged, in
particular no new socket is created): it returns the existing socket when
the in-flight attempt has already produced one, and throws when the socket
does not yet exist. -/
theorem connect_inflight_no_second_attempt (s : WAService) (h : s.isConnecting = true) :
    (connectStep s).1 = s ∧
    (∀ hnd, s.sock = some hnd → (connectStep s).2 = ConnectResult.handle hnd) ∧
    (s.sock = none → (connectStep s).2 = ConnectResult.error) := by
  unfold connectStep connectBegin
  cases hs : s.sock <;> simp [h, hs]

/-- Witness for the amended C8 at a concrete in-flight state holding a
socket. -/
theorem connect_inflight_no_second_attempt_witness :
    (connectStep ⟨some 5, 0, true, [], 6⟩).1 = ⟨some 5, 0, true, [], 6⟩ ∧
    (connectStep ⟨some 5, 0, true, [], 6⟩).2 = ConnectResult.handle 5 := by
  have h := connect_inflight_no_second_attempt ⟨some 5, 0, true, [], 6⟩ rfl
  exact ⟨h.1, h.2.1 5 rfl⟩

/-- Chunking a list with a positive chunk size loses and reorders nothing. -/
theorem chunkList_flatten {α : Type} (n : Nat) :
    ∀ l : List α, (chunkList (n + 1) l).flatten = l
  | [] => by simp [chunkList]
  | x :: xs => by
    rw [chunkList]
    rw [List.flatten_cons, chunkList_flatten n (xs.drop n), ← List.drop_succ_cons]
    exact List.take_append_drop (n + 1) (x :: xs)
termination_by l => l.length
decreasing_by
  simp only [List.length_cons, List.length_drop]
  omega

/-- Every chunk produced with a positive chunk size is at most that long. -/
theorem chunkList_length_le {α : Type} (n : Nat) :
    ∀ l : List α, ∀ b ∈ chunkList (n + 1) l, b.length ≤ n + 1
  | [] => by simp [chunkList]
  | x :: xs => by
    intro b hb
    rw [chunkList] at hb
    rcases List.mem_cons.mp hb with hhead | htail
    · rw [hhead, List.length_take]
      exact min_le_left _ _
    · exact chunkList_length_le n (xs.drop n) b htail
termination_by l => l.length
decreasing_by
  simp only [List.length_cons, List.length_drop]
  omega

/-- Claim C5: a history batch first applies all chat and contact deltas by
find-or-create inside the one transaction (in which an existing chat name
is overwritten only when the stored name is falsy and a name is supplied);
the committed result is then fed to the same ingestion pipeline in
sub-batches of at most 100 messages, outside any enclosing transaction —
the handler equals the chunked message fold applied after the committed
transaction, the chunks partition the batch in order, each chunk holds at
most 100 messages, a found chat with a truthy stored name makes the chat
delta a complete no-op, a found chat with a falsy stored name takes the
supplied name, and a delta supplying no name leaves a found chat
untouched. -/
theorem history_batch_phases (now : Int) (ev : HistorySetEvent) (s : Store) :
    handleHistorySet now ev s =
      (chunkList MESSAGE_BATCH_SIZE ev.messages).foldl
        (fun st batch => handleUpsert now st batch) (historyTransaction s ev) ∧
    (chunkList MESSAGE_BATCH_SIZE ev.messages).flatten = ev.messages ∧
    (∀ b ∈ chunkList MESSAGE_BATCH_SIZE ev.messages, b.length ≤ MESSAGE_BATCH_SIZE) ∧
    (∀ (t : Store) (cd : HistoryChat) (c : ChatRow),
      findChatByJid t cd.id = some c → strTruthy c.name = true →
      historyApplyChat t cd = t) ∧
    (∀ (t : Store) (cd : HistoryChat) (c : ChatRow) (nm : String), cd.id ≠ "" →
      findChatByJid t cd.id = some c → strTruthy c.name = false →
      jsStrOrNull cd.name = some nm →
      (findChatByJid (historyApplyChat t cd) cd.id).map (fun x => x.name) =
        some (some nm)) ∧
    (∀ (t : Store) (cd : HistoryChat) (c : ChatRow),
      findChatByJid t cd.id = some c → jsStrOrNull cd.name = none →
      historyApplyChat t cd = t) := by
  refine ⟨rfl, chunkList_flatten 99 ev.messages, chunkList_length_le 99 ev.messages,
    ?_, ?_, ?_⟩
  · intro t cd c hfind htr
    unfold historyApplyChat
    by_cases hid : cd.id = ""
    · rw [if_pos hid]
    · rw [if_neg hid]
      have hfoc : chatFindOrCreate t cd.id (chatTypeFromJid cd.id) (jsStrOrNull cd.name) =
          (t, c, false) := by
        unfold chatFindOrCreate
        rw [hfind]
      simp only [hfoc]
      simp [htr]
  · intro t cd c nm hid hfind hfalse hnm
    unfold historyApplyChat
    rw [if_neg hid]
    have hfoc : chatFindOrCreate t cd.id (chatTypeFromJid cd.id) (jsStrOrNull cd.name) =
        (t, c, false) := by
      unfold chatFindOrCreate
      rw [hfind]
    simp only [hfoc]
    simp only [hnm, hfalse]
    simp only [Bool.not_false, Bool.not_true, Option.isSome_some, Bool.and_true, Bool.true_and,
      Bool.and_self, Bool.and_false, Bool.false_and]
    rw [if_pos trivial]
    rw [findChatByJid_updateChatRow_self t (fun x => { x with name := some nm })
      (fun _ => rfl) cd.id c hfind]
    simp
  · intro t cd c hfind hname
    unfold historyApplyChat
    by_cases hid : cd.id = ""
    · rw [if_pos hid]
    · rw [if_neg hid]
      have hfoc : chatFindOrCreate t cd.id (chatTypeFromJid cd.id) (jsStrOrNull cd.name) =
          (t, c, false) := by
        unfold chatFindOrCreate
        rw [hfind]
      simp only [hfoc]
      simp [hname]

/-- Witness for C5: the phase equation and chunk bounds at a concrete
batch, plus all three chat-name cases at concrete stores. -/
theorem history_batch_phases_witness :
    handleHistorySet 5 histEvC5 emptyStore =
      (chunkList MESSAGE_BATCH_SIZE histEvC5.messages).foldl
        (fun st batch => handleUpsert 5 st batch) (historyTransaction emptyStore histEvC5) ∧
    (chunkList MESSAGE_BATCH_SIZE histEvC5.messages).flatten = histEvC5.messages ∧
    historyApplyChat storeKept { id := "222@g.us", name := some "Ignored" } = storeKept ∧
    (findChatByJid (historyApplyChat storeUnnamed
        { id := "222@g.us", name := some "Taken" }) "222@g.us").map (fun x => x.name) =
      some (some "Taken") ∧
    historyApplyChat storeUnnamed { id := "222@g.us", name := none } = storeUnnamed := by
  have h := history_batch_phases 5 histEvC5 emptyStore
  refine ⟨h.1, h.2.1, ?_, ?_, ?_⟩
  · exact h.2.2.2.1 storeKept { id := "222@g.us", name := some "Ignored" } chatRowKept
      (by decide) (by decide)
  · exact h.2.2.2.2.1 storeUnnamed { id := "222@g.us", name := some "Taken" } chatRowUnnamed
      "Taken" (by decide) (by decide) (by decide) (by decide)
  · exact h.2.2.2.2.2 storeUnnamed { id := "222@g.us", name := none } chatRowUnnamed
      (by decide) (by decide)

/-- Claim C6: each item of a message batch runs in its own error boundary —
with a per-item step that fails on item 3 (leaving its writes aside) and
behaves normally on the others, the guarded loop completes and produces
exactly the store of the failure-free run on items 1, 2, 4, 5, and each of
those four external ids is present in the final messages table. -/
theorem per_item_error_boundary (now : Int)
    (itemStep : Store → WebMessageInfo → Store × Option String) (s : Store)
    (m1 m2 m3 m4 m5 : WebMessageInfo) (e : String) (k1 k2 k4 k5 : MessageKey)
    (h1 : ∀ t, itemStep t m1 = (handleUpsertOne now t m1, none))
    (h2 : ∀ t, itemStep t m2 = (handleUpsertOne now t m2, none))
    (h3 : ∀ t, itemStep t m3 = (t, some e))
    (h4 : ∀ t, itemStep t m4 = (handleUpsertOne now t m4, none))
    (h5 : ∀ t, itemStep t m5 = (handleUpsertOne now t m5, none))
    (hk1 : m1.key = some k1) (ht1 : strTruthy k1.remoteJid = true)
    (hi1 : strTruthy k1.id = true)
    (hp1 : (normalizeMessage now k1 m1).messageType ≠ "protocol")
    (hk2 : m2.key = some k2) (ht2 : strTruthy k2.remoteJid = true)
    (hi2 : strTruthy k2.id = true)
    (hp2 : (normalizeMessage now k2 m2).messageType ≠ "protocol")
    (hk4 : m4.key = some k4) (ht4 : strTruthy k4.remoteJid = true)
    (hi4 : strTruthy k4.id = true)
    (hp4 : (normalizeMessage now k4 m4).messageType ≠ "protocol")
    (hk5 : m5.key = some k5) (ht5 : strTruthy k5.remoteJid = true)
    (hi5 : strTruthy k5.id = true)
    (hp5 : (normalizeMessage now k5 m5).messageType ≠ "protocol") :
    handleUpsertGuarded itemStep s [m1, m2, m3, m4, m5] =
      handleUpsert now s [m1, m2, m4, m5] ∧
    (∃ row ∈ (handleUpsertGuarded itemStep s [m1, m2, m3, m4, m5]).messages,
      row.message_id = (normalizeMessage now k1 m1).messageId) ∧
    (∃ row ∈ (handleUpsertGuarded itemStep s [m1, m2, m3, m4, m5]).messages,
      row.message_id = (normalizeMessage now k2 m2).messageId) ∧
    (∃ row ∈ (handleUpsertGuarded itemStep s [m1, m2, m3, m4, m5]).messages,
      row.message_id = (normalizeMessage now k4 m4).messageId) ∧
    (∃ row ∈ (handleUpsertGuarded itemStep s [m1, m2, m3, m4, m5]).messages,
      row.message_id = (normalizeMessage now k5 m5).messageId) := by
  have heq : handleUpsertGuarded itemStep s [m1, m2, m3, m4, m5] =
      handleUpsert now s [m1, m2, m4, m5] := by
    simp [handleUpsertGuarded, handleUpsert, h1, h2, h3, h4, h5]
  have hF : handleUpsert now s [m1, m2, m4, m5] =
      handleUpsertOne now (handleUpsertOne now (handleUpsertOne now
        (handleUpsertOne now s m1) m2) m4) m5 := rfl
  obtain ⟨r1, hr1m, hr1id⟩ := handleUpsertOne_present now s m1 k1 hk1 ht1 hi1 hp1
  obtain ⟨r2, hr2m, hr2id⟩ :=
    handleUpsertOne_present now (handleUpsertOne now s m1) m2 k2 hk2 ht2 hi2 hp2
  obtain ⟨r4, hr4m, hr4id⟩ :=
    handleUpsertOne_present now (handleUpsertOne now (handleUpsertOne now s m1) m2) m4
      k4 hk4 ht4 hi4 hp4
  obtain ⟨r5, hr5m, hr5id⟩ :=
    handleUpsertOne_present now (handleUpsertOne now (handleUpsertOne now
      (handleUpsertOne now s m1) m2) m4) m5 k5 hk5 ht5 hi5 hp5
  refine ⟨heq, ?_, ?_, ?_, ?_⟩
  · refine ⟨r1, ?_, hr1id⟩
    rw [heq, hF]
    exact handleUpsertOne_messages_mono _ _ _ _
      (handleUpsertOne_messages_mono _ _ _ _ (handleUpsertOne_messages_mono _ _ _ _ hr1m))
  · refine ⟨r2, ?_, hr2id⟩
    rw [heq, hF]
    exact handleUpsertOne_messages_mono _ _ _ _ (handleUpsertOne_messages_mono _ _ _ _ hr2m)
  · refine ⟨r4, ?_, hr4id⟩
    rw [heq, hF]
    exact handleUpsertOne_messages_mono _ _ _ _ hr4m
  · refine ⟨r5, ?_, hr5id⟩
    rw [heq, hF]
    exact hr5m

/-- Witness for C6: a concrete batch of five messages whose third item
fails; the other four ids end up stored and the run equals the
failure-free run on the four. -/
theorem per_item_error_boundary_witness :
    handleUpsertGuarded c6step emptyStore
        [mkTextMsg "A1", mkTextMsg "A2", mkTextMsg "A3", mkTextMsg "A4", mkTextMsg "A5"] =
      handleUpsert 0 emptyStore
        [mkTextMsg "A1", mkTextMsg "A2", mkTextMsg "A4", mkTextMsg "A5"] ∧
    (∃ row ∈ (handleUpsertGuarded c6step emptyStore
        [mkTextMsg "A1", mkTextMsg "A2", mkTextMsg "A3", mkTextMsg "A4",
          mkTextMsg "A5"]).messages, row.message_id = "A1") ∧
    (∃ row ∈ (handleUpsertGuarded c6step emptyStore
        [mkTextMsg "A1", mkTextMsg "A2", mkTextMsg "A3", mkTextMsg "A4",
          mkTextMsg "A5"]).messages, row.message_id = "A2") ∧
    (∃ row ∈ (handleUpsertGuarded c6step emptyStore
        [mkTextMsg "A1", mkTextMsg "A2", mkTextMsg "A3", mkTextMsg "A4",
          mkTextMsg "A5"]).messages, row.message_id = "A4") ∧
    (∃ row ∈ (handleUpsertGuarded c6step emptyStore
        [mkTextMsg "A1", mkTextMsg "A2", mkTextMsg "A3", mkTextMsg "A4",
          mkTextMsg "A5"]).messages, row.message_id = "A5") := by
  have h := per_item_error_boundary 0 c6step emptyStore
    (mkTextMsg "A1") (mkTextMsg "A2") (mkTextMsg "A3") (mkTextMsg "A4") (mkTextMsg "A5")
    "insert failed" (mkTextKey "A1") (mkTextKey "A2") (mkTextKey "A4") (mkTextKey "A5")
    (fun t => by unfold c6step; rw [if_neg (by decide)])
    (fun t => by unfold c6step; rw [if_neg (by decide)])
    (fun t => by unfold c6step; rw [if_pos rfl])
    (fun t => by unfold c6step; rw [if_neg (by decide)])
    (fun t => by unfold c6step; rw [if_neg (by decide)])
    rfl rfl rfl (by decide)
    rfl rfl rfl (by decide)
    rfl rfl rfl (by decide)
    rfl rfl rfl (by decide)
  exact ⟨h.1, h.2.1, h.2.2.1, h.2.2.2.1, h.2.2.2.2⟩

/-- Applying a non-empty changes object coincides with the field-level
delta description. -/
theorem chatRowApplyChanges_spec (u : ChatUpdate) (c : ChatRow) :
    chatRowApplyChanges (chatBuildChanges u) c = chatDeltaSpec u c := by
  obtain ⟨i, a, p, m, nm, un⟩ := u
  cases a <;> cases p <;> cases m <;> cases nm <;> cases un <;> rfl

/-- An empty changes object means the delta description is the identity. -/
theorem chatChangesEmpty_spec (u : ChatUpdate) (c : ChatRow)
    (h : chatChangesIsEmpty (chatBuildChanges u) = true) : chatDeltaSpec u c = c := by
  obtain ⟨i, a, p, m, nm, un⟩ := u
  cases a <;> cases p <;> cases m <;> cases nm <;> cases un <;>
    first
      | rfl
      | exact (Bool.false_ne_true h).elim

/-- One chats.update delta on a found chat rewrites exactly the fields of
the delta description. -/
theorem chatHandleUpdateOne_found (s : Store) (u : ChatUpdate) (c : ChatRow)
    (hid : u.id ≠ "") (hfind : findChatByJid s u.id = some c) :
    findChatByJid (chatHandleUpdateOne s u) u.id = some (chatDeltaSpec u c) := by
  unfold chatHandleUpdateOne
  rw [if_neg hid, hfind]
  simp only []
  by_cases hemp : chatChangesIsEmpty (chatBuildChanges u) = true
  · rw [hemp]
    simp only [Bool.not_true]
    rw [if_neg (by decide), hfind, chatChangesEmpty_spec u c hemp]
  · rw [Bool.not_eq_true] at hemp
    rw [hemp]
    simp only [Bool.not_false]
    rw [if_pos trivial,
      findChatByJid_updateChatRow_self s (chatRowApplyChanges (chatBuildChanges u))
        (fun _ => rfl) u.id c hfind,
      chatRowApplyChanges_spec u c]

/-- Applying a non-empty contact changes object coincides with the
field-level delta description. -/
theorem contactRowApplyChanges_spec (now : Int) (u : ContactUpdate) (c : ContactRow)
    (h : contactChangesIsEmpty (contactBuildChanges u) = false) :
    contactRowApplyChanges now (contactBuildChanges u) c = contactDeltaSpec now u c := by
  obtain ⟨i, nm, nt, img, st⟩ := u
  cases hrn : contactResolveName ⟨i, nm, nt, img, st⟩ <;> cases img <;> cases st <;>
    simp_all [contactBuildChanges, contactRowApplyChanges, contactDeltaSpec,
      contactChangesIsEmpty, JsOpt.presentValue]

/-- An empty contact changes object means the delta description is the
identity. -/
theorem contactChangesEmpty_spec (now : Int) (u : ContactUpdate) (c : ContactRow)
    (h : contactChangesIsEmpty (contactBuildChanges u) = true) :
    contactDeltaSpec now u c = c := by
  obtain ⟨i, nm, nt, img, st⟩ := u
  cases hrn : contactResolveName ⟨i, nm, nt, img, st⟩ <;> cases img <;> cases st <;>
    first
      | rfl
      | simp_all [contactBuildChanges, contactChangesIsEmpty, contactDeltaSpec,
          JsOpt.presentValue]

/-- One contacts.update delta on a found contact rewrites exactly the
fields of the delta description. -/
theorem contactHandleUpdateOne_found (now : Int) (s : Store) (u : ContactUpdate)
    (c : ContactRow) (hid : u.id ≠ "") (hfind : findContactById s u.id = some c) :
    findContactById (contactHandleUpdateOne now s u) u.id =
      some (contactDeltaSpec now u c) := by
  unfold contactHandleUpdateOne
  rw [if_neg hid]
  have hfoc : contactFindOrCreate s u.id (contactResolveName u) u.imgUrl.strTruthyVal
      u.status.strTruthyVal = (s, c, false) := by
    unfold contactFindOrCreate
    rw [hfind]
  simp only [hfoc]
  simp only [if_neg Bool.false_ne_true]
  by_cases hemp : contactChangesIsEmpty (contactBuildChanges u) = true
  · rw [hemp]
    simp only [Bool.not_true]
    rw [if_neg (by decide), hfind, contactChangesEmpty_spec now u c hemp]
  · rw [Bool.not_eq_true] at hemp
    rw [hemp]
    simp only [Bool.not_false]
    rw [if_pos trivial,
      findContactById_updateContactRow_self s (contactRowApplyChanges now
        (contactBuildChanges u)) (fun _ => rfl) u.id c hfind,
      contactRowApplyChanges_spec now u c hemp]

/-- Claim C7 counterexample: a contact-update whose name field is an
explicit null leaves the stored name Alice instead of overwriting it with
null, and a chat-update whose archive field is an explicit null leaves the
stored archived flag true — so a field explicitly present as null does not
always overwrite the stored value. -/
theorem delta_explicit_null_counterexample :
    (findContactById (contactHandleUpdateOne 9 storeAlice { id := "c1", name := .null })
        "c1").map (fun c => c.name) = some (some "Alice") ∧
    some (some "Alice") ≠ some (none : Option String) ∧
    (findChatByJid (chatHandleUpdateOne storeArchived
        { id := "111@s.whatsapp.net", archive := .null }) "111@s.whatsapp.net").map
      (fun c => c.is_archived) = some true := by
  refine ⟨by decide, by decide, by decide⟩

/-- Claim C7 (amended): chat-update and contact-update events apply exactly
the fields present in the incoming delta to the found stored entity — an
absent field leaves the stored value untouched — but explicit null is
field-dependent: it overwrites the chat name and the contact avatar and
status fields, while it is ignored for the chat archive, pin, mute and
unread-count fields and for the contact name (see chatDeltaSpec and
contactDeltaSpec). -/
theorem delta_update_applies_present_fields (now : Int) :
    (∀ (s : Store) (u : ChatUpdate) (c : ChatRow), u.id ≠ "" →
      findChatByJid s u.id = some c →
      findChatByJid (chatHandleUpdateOne s u) u.id = some (chatDeltaSpec u c)) ∧
    (∀ (s : Store) (u : ContactUpdate) (c : ContactRow), u.id ≠ "" →
      findContactById s u.id = some c →
      findContactById (contactHandleUpdateOne now s u) u.id =
        some (contactDeltaSpec now u c)) := by
  exact ⟨fun s u c => chatHandleUpdateOne_found s u c,
    fun s u c => contactHandleUpdateOne_found now s u c⟩

/-- Witness for the amended C7 at concrete rows: an explicit-null name
delta on a chat clears its name while a null archive delta is ignored, and
an explicit-null status delta on a contact clears the about field while a
null name delta keeps Alice. -/
theorem delta_update_applies_present_fields_witness :
    findChatByJid (chatHandleUpdateOne storeArchived
        { id := "111@s.whatsapp.net", archive := .null, name := .null })
      "111@s.whatsapp.net" =
      some (chatDeltaSpec { id := "111@s.whatsapp.net", archive := .null, name := .null }
        chatRowArchived) ∧
    findContactById (contactHandleUpdateOne 9 storeAlice
        { id := "c1", name := .null, status := .null }) "c1" =
      some (contactDeltaSpec 9 { id := "c1", name := .null, status := .null }
        contactRowAlice) := by
  have h := delta_update_applies_present_fields 9
  exact ⟨h.1 storeArchived { id := "111@s.whatsapp.net", archive := .null, name := .null }
      chatRowArchived (by decide) (by decide),
    h.2 storeAlice { id := "c1", name := .null, status := .null } contactRowAlice
      (by decide) (by decide)⟩

/-- Claim C9: a contact-update carrying no name (null or absent, with no
notify fallback either) never overwrites a previously stored name, while
an update carrying a non-null name replaces it; in particular the event
sequence Alice, null, Alicia leaves the stored name Alice after the second
event and Alicia after the third. -/
theorem contact_name_last_writer_wins (now : Int) :
    (∀ (s : Store) (u : ContactUpdate) (c : ContactRow),
      findContactById s u.id = some c → contactResolveName u = none →
      (findContactById (contactHandleUpdateOne now s u) u.id).map (fun x => x.name) =
        some c.name) ∧
    (∀ (s : Store) (u : ContactUpdate) (c : ContactRow) (nm : String), u.id ≠ "" →
      findContactById s u.id = some c → contactResolveName u = some nm →
      (findContactById (contactHandleUpdateOne now s u) u.id).map (fun x => x.name) =
        some (some nm)) ∧
    (findContactById (contactHandleUpdate 0 emptyStore
        [{ id := "c1", name := .val "Alice" }, { id := "c1", name := .null }])
      "c1").map (fun x => x.name) = some (some "Alice") ∧
    (findContactById (contactHandleUpdate 0 emptyStore
        [{ id := "c1", name := .val "Alice" }, { id := "c1", name := .null },
          { id := "c1", name := .val "Alicia" }]) "c1").map (fun x => x.name) =
      some (some "Alicia") := by
  refine ⟨?_, ?_, by decide, by decide⟩
  · intro s u c hfind hrn
    by_cases hid : u.id = ""
    · unfold contactHandleUpdateOne
      rw [if_pos hid, hfind]
      rfl
    · rw [contactHandleUpdateOne_found now s u c hid hfind]
      simp [contactDeltaSpec, hrn]
  · intro s u c nm hid hfind hrn
    rw [contactHandleUpdateOne_found now s u c hid hfind]
    simp [contactDeltaSpec, hrn]

/-- Witness for C9 at concrete rows: a null-name update keeps Alice and a
non-null update replaces it with Alicia. -/
theorem contact_name_last_writer_wins_witness :
    (findContactById (contactHandleUpdateOne 0 storeAlice { id := "c1", name := .null })
        "c1").map (fun x => x.name) = some (some "Alice") ∧
    (findContactById (contactHandleUpdateOne 0 storeAlice
        { id := "c1", name := .val "Alicia" }) "c1").map (fun x => x.name) =
      some (some "Alicia") := by
  have h := contact_name_last_writer_wins 0
  exact ⟨h.1 storeAlice { id := "c1", name := .null } contactRowAlice (by decide) (by decide),
    h.2.1 storeAlice { id := "c1", name := .val "Alicia" } contactRowAlice "Alicia"
      (by decide) (by decide) (by decide)⟩

/-- The group metadata find-or-create with a hit returns the found row and
leaves the store unchanged. -/
theorem groupMetaFoc_found (t : Store) (cid : Nat) (d gm : GroupMetadataRow)
    (h : findGroupMetaByChatId t cid = some gm) :
    groupMetaFindOrCreate t cid d = (t, gm, false) := by
  unfold groupMetaFindOrCreate
  rw [h]

/-- The group metadata find-or-create with a miss appends the defaults
row. -/
theorem groupMetaFoc_absent (t : Store) (cid : Nat) (d : GroupMetadataRow)
    (h : findGroupMetaByChatId t cid = none) :
    groupMetaFindOrCreate t cid d =
      ({ t with
          groupMetadata := t.groupMetadata ++ [d],
          nextGroupMetaId := t.nextGroupMetaId + 1 }, d, true) := by
  unfold groupMetaFindOrCreate
  rw [h]

/-- Updating a group metadata row does not disturb chat lookup. -/
theorem findChatByJid_updateGroupMetaRow (t : Store) (gid : Nat)
    (f : GroupMetadataRow → GroupMetadataRow) (jid : String) :
    findChatByJid (updateGroupMetaRow t gid f) jid = findChatByJid t jid := rfl

/-- Claim C10: a group-update whose payload carries a subject overwrites
the owning chat display name with that subject unconditionally — with no
hypothesis on the stored name — and upserts the subject into the group
metadata row keyed on the chat. -/
theorem group_subject_overwrites_chat_name (s : Store) (u : GroupUpdate) (c : ChatRow)
    (subj : String) (hid : u.id ≠ "") (hfind : findChatByJid s u.id = some c)
    (hsubj : u.subject = some subj) :
    (findChatByJid (groupHandleUpdateOne s u) u.id).map (fun x => x.name) =
      some (some subj) ∧
    ∃ gm ∈ (groupHandleUpdateOne s u).groupMetadata,
      gm.chat_id = c.id ∧ gm.subject = some subj := by
  unfold groupHandleUpdateOne
  rw [if_neg hid, hfind]
  simp only []
  rw [hsubj]
  simp only []
  have hne : groupChangesIsEmpty (groupBuildChanges u) = false := by
    unfold groupChangesIsEmpty groupBuildChanges
    rw [hsubj]
    simp
  rw [hne]
  simp only [Bool.not_false]
  rw [if_pos trivial]
  have hchat : findChatByJid (updateChatRow s c.id (fun x => { x with name := some subj }))
      u.id = some ({ c with name := some subj }) :=
    findChatByJid_updateChatRow_self s (fun x => { x with name := some subj })
      (fun _ => rfl) u.id c hfind
  cases hgm : findGroupMetaByChatId
      (updateChatRow s c.id (fun x => { x with name := some subj })) c.id with
  | some gm =>
    rw [groupMetaFoc_found _ _ _ gm hgm]
    simp only []
    rw [if_neg (by decide)]
    refine ⟨?_, ?_⟩
    · rw [findChatByJid_updateGroupMetaRow, hchat]
      rfl
    · unfold findGroupMetaByChatId at hgm
      have hmem := List.mem_of_find?_eq_some hgm
      have hcid : gm.chat_id = c.id := by
        have := List.find?_some hgm
        simpa using this
      refine ⟨applyGroupChanges (groupBuildChanges u) gm, ?_, hcid, ?_⟩
      · unfold updateGroupMetaRow
        simp only []
        have hx := List.mem_map_of_mem
          (fun x : GroupMetadataRow =>
            if x.id == gm.id then applyGroupChanges (groupBuildChanges u) x else x) hmem
        simpa using hx
      · show (applyGroupChanges (groupBuildChanges u) gm).subject = some subj
        unfold applyGroupChanges groupBuildChanges
        simp only []
        rw [hsubj]
  | none =>
    rw [groupMetaFoc_absent _ _ _ hgm]
    simp only []
    rw [if_pos trivial]
    refine ⟨?_, ?_⟩
    · show (findChatByJid (updateChatRow s c.id
          (fun x => { x with name := some subj })) u.id).map (fun x => x.name) =
        some (some subj)
      rw [hchat]
      rfl
    · refine ⟨_, List.mem_append_right _ (List.mem_singleton_self _), rfl, ?_⟩
      show (applyGroupChanges (groupBuildChanges u) _).subject = some subj
      unfold applyGroupChanges groupBuildChanges
      simp only []
      rw [hsubj]

/-- Witness for C10: a subject-bearing group update on a chat that already
has the non-null name Old renames the chat and creates the metadata row. -/
theorem group_subject_overwrites_chat_name_witness :
    (findChatByJid (groupHandleUpdateOne storeOldName
        { id := "333@g.us", subject := some "NewSubject" }) "333@g.us").map
      (fun x => x.name) = some (some "NewSubject") ∧
    ∃ gm ∈ (groupHandleUpdateOne storeOldName
        { id := "333@g.us", subject := some "NewSubject" }).groupMetadata,
      gm.chat_id = 4 ∧ gm.subject = some "NewSubject" := by
  have h := group_subject_overwrites_chat_name storeOldName
    { id := "333@g.us", subject := some "NewSubject" } chatRowOldName "NewSubject"
    (by decide) (by decide) rfl
  exact ⟨h.1, h.2⟩

end WhatsappMail
